import Mathlib

/-!
Verification of the SceneForge client state store and generation workflow.

This file shallowly embeds the TypeScript source of the repository:
* the zustand application store (`appStore`: project/frame CRUD, selection
  tracking, persisted snapshot) — source file `src/unnamed/part_000`;
* the generation hook (`useGenerator`: `pollGenerationJob`, `generate`,
  `regenerateFrame`) — source file `src/src/components/JsonEditor.tsx`;
* the demo-mode mock generator — source file `src/src/api/mockData.ts`.

Modelling conventions:
* `Date.now()` is an explicit `now : Nat` parameter of every operation that
  reads the clock;
* `Math.random()` draws are explicit parameters (functions from the draw
  index to a rational);
* network I/O is an explicit parameter describing what each fetch returns;
* JS numbers are rationals (`ℚ`); JS `x || y` on numbers treats `0`,
  `undefined` (modelled as `Option.none`) as falsy, and on strings treats
  `""` and `undefined` as falsy.
-/

/-- `FrameParams` from `src/unnamed/part_000` lines 13-21. -/
structure FrameParams where
  fov : ℚ
  lighting : ℚ
  hdrBloom : ℚ
  colorTemp : ℚ
  contrast : ℚ
  cameraAngle : String
  composition : String
  deriving Repr, DecidableEq

/-- `Frame` from `src/unnamed/part_000` lines 4-11; `notes?` is optional. -/
structure Frame where
  id : String
  imageUrl : String
  prompt : String
  params : FrameParams
  timestamp : Nat
  notes : Option String
  deriving Repr, DecidableEq

/-- `SceneProject` from `src/unnamed/part_000` lines 23-32; `backendId?` is
optional. -/
structure SceneProject where
  id : String
  name : String
  description : String
  genre : String
  frames : List Frame
  createdAt : Nat
  updatedAt : Nat
  backendId : Option String
  deriving Repr, DecidableEq

/-- `GenerationProgress` from `src/unnamed/part_000` lines 34-39. -/
structure GenerationProgress where
  step : Nat
  totalSteps : Nat
  message : String
  isComplete : Bool
  deriving Repr, DecidableEq

/-- The store state: the data fields of `AppState` from
`src/unnamed/part_000` lines 41-76 (the function-valued members are the
operations modelled below).  `jsonEditorContent : Record<string, unknown>`
is modelled as an association list of string key/value pairs; no claim
inspects its contents. -/
structure AppState where
  demoMode : Bool
  currentProject : Option SceneProject
  isGenerating : Bool
  generationProgress : Option GenerationProgress
  selectedFrameId : Option String
  jsonEditorContent : List (String × String)
  projects : List SceneProject
  deriving Repr, DecidableEq

/-- The initial store state (`src/unnamed/part_000` lines 82-104:
`demoMode: false`, `currentProject: null`, `isGenerating: false`,
`generationProgress: null`, `selectedFrameId: null`,
`jsonEditorContent: {}`, `projects: []`). -/
def initialState : AppState :=
  { demoMode := false
    currentProject := none
    isGenerating := false
    generationProgress := none
    selectedFrameId := none
    jsonEditorContent := []
    projects := [] }

/-- `setDemoMode` (`src/unnamed/part_000` line 83). -/
def setDemoMode (s : AppState) (enabled : Bool) : AppState :=
  { s with demoMode := enabled }

/-- `setCurrentProject` (`src/unnamed/part_000` line 87). -/
def setCurrentProject (s : AppState) (project : Option SceneProject) : AppState :=
  { s with currentProject := project }

/-- `setIsGenerating` (`src/unnamed/part_000` line 91). -/
def setIsGenerating (s : AppState) (generating : Bool) : AppState :=
  { s with isGenerating := generating }

/-- `setGenerationProgress` (`src/unnamed/part_000` line 93). -/
def setGenerationProgress (s : AppState) (progress : Option GenerationProgress) :
    AppState :=
  { s with generationProgress := progress }

/-- `setSelectedFrameId` (`src/unnamed/part_000` line 97). -/
def setSelectedFrameId (s : AppState) (id : Option String) : AppState :=
  { s with selectedFrameId := id }

/-- `addProject` (`src/unnamed/part_000` lines 105-106): appends to the
project list. -/
def addProject (s : AppState) (project : SceneProject) : AppState :=
  { s with projects := s.projects ++ [project] }

/-- `updateProject` (`src/unnamed/part_000` lines 107-116): replaces every
list entry with a matching id and refreshes `currentProject` if its id
matches. -/
def updateProject (s : AppState) (project : SceneProject) : AppState :=
  { s with
    projects := s.projects.map (fun p => if p.id = project.id then project else p)
    currentProject :=
      match s.currentProject with
      | some c => if c.id = project.id then some project else some c
      | none => none }

/-- `deleteProject` (`src/unnamed/part_000` lines 117-122): filters the
project list by id and nulls `currentProject` when its id matches
(`state.currentProject?.id === id`). -/
def deleteProject (s : AppState) (id : String) : AppState :=
  { s with
    projects := s.projects.filter (fun p => p.id != id)
    currentProject :=
      match s.currentProject with
      | some c => if c.id = id then none else some c
      | none => none }

/-- `createProject` (`src/unnamed/part_000` lines 123-135): allocates a
project with a time-derived id, empty frames, both timestamps `now`, and
appends it via `addProject`; returns the created value together with the
new state. -/
def createProject (s : AppState) (name description genre : String) (now : Nat) :
    AppState × SceneProject :=
  let project : SceneProject :=
    { id := "project-" ++ toString now
      name := name
      description := description
      genre := genre
      frames := []
      createdAt := now
      updatedAt := now
      backendId := none }
  (addProject s project, project)

/-- `addFrame` (`src/unnamed/part_000` lines 138-152): no-op without a
current project; otherwise appends the frame, bumps `updatedAt`, and writes
the updated project into both `currentProject` and `projects`. -/
def addFrame (s : AppState) (frame : Frame) (now : Nat) : AppState :=
  match s.currentProject with
  | none => s
  | some cp =>
    let updatedProject := { cp with frames := cp.frames ++ [frame], updatedAt := now }
    { s with
      currentProject := some updatedProject
      projects := s.projects.map
        (fun p => if p.id = updatedProject.id then updatedProject else p) }

/-- `updateFrame` (`src/unnamed/part_000` lines 153-169): no-op without a
current project; otherwise replaces every frame with a matching id, bumps
`updatedAt`, and writes the updated project into both `currentProject` and
`projects`. -/
def updateFrame (s : AppState) (frame : Frame) (now : Nat) : AppState :=
  match s.currentProject with
  | none => s
  | some cp =>
    let updatedProject :=
      { cp with
        frames := cp.frames.map (fun f => if f.id = frame.id then frame else f)
        updatedAt := now }
    { s with
      currentProject := some updatedProject
      projects := s.projects.map
        (fun p => if p.id = updatedProject.id then updatedProject else p) }

/-- `deleteFrame` (`src/unnamed/part_000` lines 170-186): no-op without a
current project; otherwise removes the frame, bumps `updatedAt`, writes the
updated project into both `currentProject` and `projects`, and clears
`selectedFrameId` when it referenced the deleted frame. -/
def deleteFrame (s : AppState) (id : String) (now : Nat) : AppState :=
  match s.currentProject with
  | none => s
  | some cp =>
    let updatedProject :=
      { cp with frames := cp.frames.filter (fun f => f.id != id), updatedAt := now }
    { s with
      currentProject := some updatedProject
      projects := s.projects.map
        (fun p => if p.id = updatedProject.id then updatedProject else p)
      selectedFrameId :=
        if s.selectedFrameId = some id then none else s.selectedFrameId }

/-- `reorderFrames` (`src/unnamed/part_000` lines 187-201): no-op without a
current project; otherwise replaces the whole frame sequence, bumps
`updatedAt`, and writes the updated project into both `currentProject` and
`projects`. -/
def reorderFrames (s : AppState) (frames : List Frame) (now : Nat) : AppState :=
  match s.currentProject with
  | none => s
  | some cp =>
    let updatedProject := { cp with frames := frames, updatedAt := now }
    { s with
      currentProject := some updatedProject
      projects := s.projects.map
        (fun p => if p.id = updatedProject.id then updatedProject else p) }

/-- One call to one of the four frame-mutation operations, together with
the clock value `Date.now()` observed during that call. -/
inductive FrameOp where
  | add (frame : Frame) (now : Nat)
  | update (frame : Frame) (now : Nat)
  | del (id : String) (now : Nat)
  | reorder (frames : List Frame) (now : Nat)
  deriving Repr, DecidableEq

/-- Dispatch one `FrameOp` to the corresponding store operation. -/
def applyFrameOp (s : AppState) : FrameOp → AppState
  | .add frame now => addFrame s frame now
  | .update frame now => updateFrame s frame now
  | .del id now => deleteFrame s id now
  | .reorder frames now => reorderFrames s frames now

/-- Run a sequence of frame-mutation calls left to right. -/
def applyFrameOps (s : AppState) (ops : List FrameOp) : AppState :=
  ops.foldl applyFrameOp s

/-- The consistency property of claim C1: whenever `currentProject` is
non-null, every entry of `projects` with the same id carries an identical
frame list. -/
def frameConsistent (s : AppState) : Prop :=
  ∀ cp, s.currentProject = some cp →
    ∀ p ∈ s.projects, p.id = cp.id → p.frames = cp.frames

instance (s : AppState) : Decidable (frameConsistent s) := by
  unfold frameConsistent
  infer_instance

/-- The durable snapshot shape produced by `partialize`
(`src/unnamed/part_000` lines 203-209): exactly the fields `demoMode` and
`projects`. -/
structure PersistedSnapshot where
  demoMode : Bool
  projects : List SceneProject
  deriving Repr, DecidableEq

/-- `partialize` (`src/unnamed/part_000` lines 205-208). -/
def partialize (s : AppState) : PersistedSnapshot :=
  { demoMode := s.demoMode, projects := s.projects }

/-- Rehydration on reload: zustand `persist` spreads the stored snapshot
over the freshly constructed initial state, so the snapshot's two fields
are restored and every other field takes its initial default. -/
def rehydrate (snap : PersistedSnapshot) : AppState :=
  { initialState with demoMode := snap.demoMode, projects := snap.projects }

/-- `defaultParams` from `src/src/api/mockData.ts` lines 45-53. -/
def defaultParams : FrameParams :=
  { fov := 50
    lighting := 60
    hdrBloom := 30
    colorTemp := 5500
    contrast := 50
    cameraAngle := "eye-level"
    composition := "rule-of-thirds" }

/-- `demoFrameImages` from `src/src/api/mockData.ts` lines 4-11 (URLs
abbreviated to their distinguishing photo segment; only index arithmetic
matters to the claims). -/
def demoFrameImages : List String :=
  [ "https://images.unsplash.com/photo-1534447677768-be436bb09401?w=800&h=450&fit=crop"
  , "https://images.unsplash.com/photo-1519608487953-e999c86e7455?w=800&h=450&fit=crop"
  , "https://images.unsplash.com/photo-1478760329108-5c3ed9d495a0?w=800&h=450&fit=crop"
  , "https://images.unsplash.com/photo-1493246507139-91e8fad9978e?w=800&h=450&fit=crop"
  , "https://images.unsplash.com/photo-1504253163759-c23fccaebb55?w=800&h=450&fit=crop"
  , "https://images.unsplash.com/photo-1517483000871-1dbf64a6e1c6?w=800&h=450&fit=crop" ]

/-- The six per-frame prompt suffixes of `mockGenerateResponse`
(`src/src/api/mockData.ts` lines 120-127). -/
def framePrompts (prompt : String) : List String :=
  [ prompt ++ " - Opening establishing shot"
  , prompt ++ " - Medium shot with character focus"
  , prompt ++ " - Close-up detail shot"
  , prompt ++ " - Wide angle dramatic moment"
  , prompt ++ " - Over-shoulder perspective"
  , prompt ++ " - Final climactic frame" ]

/-- JS `Math.max a (Math.min b x)` on rationals. -/
def clampQ (lo hi x : ℚ) : ℚ := max lo (min hi x)

/-- One frame of `mockGenerateResponse` (`src/src/api/mockData.ts` lines
129-144).  `rnd` packages the three `Math.random()` draws of iteration `i`
already scaled and shifted as written in the source:
`(Math.random() - 0.5) * 15` for `fov`, `(Math.random() - 0.5) * 20` for
`lighting`, `(Math.random() - 0.5) * 15` for `hdrBloom`; the claims hold
for arbitrary rational values of these perturbations. -/
def mockFrame (prompt : String) (params : FrameParams) (rnd : Nat → ℚ × ℚ × ℚ)
    (now : Nat) (i : Nat) : Frame :=
  { id := "frame-" ++ toString now ++ "-" ++ toString i
    imageUrl := (demoFrameImages.get? (i % demoFrameImages.length)).getD ""
    prompt := ((framePrompts prompt).get? i).getD ""
    params :=
      { params with
        fov := clampQ 24 120 (params.fov + (rnd i).1)
        lighting := clampQ 0 100 (params.lighting + (rnd i).2.1)
        hdrBloom := clampQ 0 100 (params.hdrBloom + (rnd i).2.2)
        cameraAngle :=
          if i = 0 then "eye-level"
          else if i = 3 then "low-angle"
          else if i = 4 then "over-shoulder"
          else params.cameraAngle }
    timestamp := now + i * 100
    notes := if i = 0 then some "Opening shot - establish mood and setting" else none }

/-- The frames resolved by demo-mode `mockGenerateResponse`
(`src/src/api/mockData.ts` lines 103-147): always `frameCount = 6` frames.
The per-step progress callbacks and delays (lines 111-116) affect neither
the produced frames nor the resolved value and are not modelled. -/
def mockGenerateResponse (prompt : String) (params : FrameParams)
    (rnd : Nat → ℚ × ℚ × ℚ) (now : Nat) : List Frame :=
  (List.range 6).map (mockFrame prompt params rnd now)

/-- JS `x || d` on a possibly-missing number: `undefined` and `0` are
falsy, so both fall through to `d`. -/
def jsOrQ (x : Option ℚ) (d : ℚ) : ℚ :=
  match x with
  | some v => if v = 0 then d else v
  | none => d

/-- JS `x || d` on a possibly-missing string: `undefined` and `""` are
falsy, so both fall through to `d`. -/
def jsOrStr (x : Option String) (d : String) : String :=
  match x with
  | some v => if v = "" then d else v
  | none => d

/-- The `params` object of one frame of a fetched backend project: each
field may be absent, and both snake_case and camelCase spellings may be
carried independently (`src/src/components/JsonEditor.tsx` lines 322-330
reads both). -/
structure PayloadParams where
  fov : Option ℚ
  lighting : Option ℚ
  hdr_bloom : Option ℚ
  hdrBloom : Option ℚ
  color_temp : Option ℚ
  colorTemp : Option ℚ
  contrast : Option ℚ
  camera_angle : Option String
  cameraAngle : Option String
  composition : Option String
  deriving Repr, DecidableEq

/-- One frame of a fetched backend project as consumed by
`pollGenerationJob` (`src/src/components/JsonEditor.tsx` lines 318-333).
`created_at` is modelled directly as the epoch milliseconds that
`new Date(frame.created_at).getTime()` yields. -/
structure PayloadFrame where
  id : String
  image_url : String
  prompt : String
  params : PayloadParams
  created_at : Nat
  notes : Option String
  deriving Repr, DecidableEq

/-- The normalization of a fetched frame's params
(`src/src/components/JsonEditor.tsx` lines 322-330): each field is read
with JS `||` fallbacks, snake_case first, then camelCase, then the
documented default. -/
def normalizeParams (p : PayloadParams) : FrameParams :=
  { fov := jsOrQ p.fov 50
    lighting := jsOrQ p.lighting 60
    hdrBloom := jsOrQ p.hdr_bloom (jsOrQ p.hdrBloom 30)
    colorTemp := jsOrQ p.color_temp (jsOrQ p.colorTemp 5500)
    contrast := jsOrQ p.contrast 50
    cameraAngle := jsOrStr p.camera_angle (jsOrStr p.cameraAngle "eye-level")
    composition := jsOrStr p.composition "rule-of-thirds" }

/-- The whole-frame normalization of `pollGenerationJob`
(`src/src/components/JsonEditor.tsx` lines 318-333). -/
def normalizeFrame (f : PayloadFrame) : Frame :=
  { id := f.id
    imageUrl := f.image_url
    prompt := f.prompt
    params := normalizeParams f.params
    timestamp := f.created_at
    notes := f.notes }

/-- Outcome of the project fetch performed after a `completed` status
(`src/src/components/JsonEditor.tsx` lines 315-335): the response is ok and
carries frames, or is not ok (`return []`), or the fetch itself throws. -/
inductive ProjectFetch where
  | ok (frames : List PayloadFrame)
  | notOk
  | threw
  deriving Repr, DecidableEq

/-- What one polling attempt observes: the job-status fetch throws or
returns a non-ok response (both raise inside the `try`), or it yields a
job record with a `status` string, an optional `error_message`, and — if
`status` is `completed` — the outcome of the follow-up project fetch. -/
inductive PollEvent where
  | fetchError
  | job (status : String) (error_message : Option String) (projectFetch : ProjectFetch)
  deriving Repr, DecidableEq

/-- How one iteration of the `try` block of `pollGenerationJob` ends
(`src/src/components/JsonEditor.tsx` lines 301-343). -/
inductive TryOutcome where
  | returned (frames : List Frame)
  | threw (msg : String)
  | fell
  deriving Repr, DecidableEq

/-- The body of the `try` block of one polling iteration
(`src/src/components/JsonEditor.tsx` lines 301-343).  Note line 337:
`throw new Error(job.error_message || 'Generation failed')` on a `failed`
status is raised inside this same `try`, so it produces `TryOutcome.threw`
like any fetch failure. -/
def pollTryBody (ev : PollEvent) : TryOutcome :=
  match ev with
  | .fetchError => .threw "Failed to get job status"
  | .job status errMsg pf =>
    if status = "completed" then
      match pf with
      | .ok pframes => .returned (pframes.map normalizeFrame)
      | .notOk => .returned []
      | .threw => .threw "project fetch failed"
    else if status = "failed" then
      .threw (jsOrStr errMsg "Generation failed")
    else
      .fell

/-- The timeout error thrown when the attempt budget is exhausted
(`src/src/components/JsonEditor.tsx` line 351). -/
def timeoutMsg : String := "Generation timeout - job did not complete in time"

/-- The `while (attempts < maxAttempts)` loop of `pollGenerationJob`
(`src/src/components/JsonEditor.tsx` lines 300-349), recursing on the
remaining attempt budget.  A `returned` try body resolves the promise; a
`threw` try body is caught by the loop's own `catch (error)` (lines
344-348), which logs, increments `attempts`, delays, and continues; a
fall-through delays, increments `attempts`, and continues. -/
def pollGo (events : Nat → PollEvent) : Nat → Nat → Except String (List Frame)
  | 0, _ => .error timeoutMsg
  | fuel + 1, attempt =>
    match pollTryBody (events attempt) with
    | .returned fs => .ok fs
    | .threw _ => pollGo events fuel (attempt + 1)
    | .fell => pollGo events fuel (attempt + 1)

/-- `pollGenerationJob` (`src/src/components/JsonEditor.tsx` lines
293-352): `maxAttempts = 60`, starting at `attempts = 0`.  `events i` is
what the `i`-th polling attempt observes. -/
def pollGenerationJob (events : Nat → PollEvent) : Except String (List Frame) :=
  pollGo events 60 0

/-- The merge of `regenerateFrame`'s remote path
(`src/src/components/JsonEditor.tsx` lines 542-546):
`{...frame, ...refinedFrames[0], timestamp: Date.now()}`.  The spread of
the polled frame overrides every field of the existing frame, because the
object built by `pollGenerationJob`'s normalization carries every key
(including `notes`, possibly `undefined`); then `timestamp` is overwritten
with the clock. -/
def mergeRefined (frame first : Frame) (now : Nat) : Frame :=
  { id := first.id
    imageUrl := first.imageUrl
    prompt := first.prompt
    params := first.params
    timestamp := now
    notes := first.notes }

/-- `regenerateFrame` of `useGenerator`
(`src/src/components/JsonEditor.tsx` lines 491-560), as a state
transition on the store plus its returned/raised value.

* With no current project, or no frame with the given id in it, the
  function returns before touching the store (lines 493-496) and resolves
  with `undefined`.
* Otherwise it sets `isGenerating` to `true` (line 498) and runs one of
  the two strategies; the `finally` (lines 555-557) sets `isGenerating`
  back to `false` synchronously on every exit.
* Demo path (lines 502-513): overwrites the frame's params and timestamp
  in place via the store's `updateFrame` and resolves with the updated
  frame.
* Remote path (lines 514-549): `remote` is the combined outcome of the
  refinement request plus `pollGenerationJob` — `.error e` when either
  throws (the caught error is re-raised, lines 551-554), `.ok fs`
  otherwise.  A non-empty `fs` merges its first frame into the found frame
  and stores it via `updateFrame`; an empty `fs` resolves with
  `undefined` without a store write. -/
def regenerateFrame (s : AppState) (frameId : String) (params : FrameParams)
    (remote : Except String (List Frame)) (now : Nat) :
    AppState × Except String (Option Frame) :=
  match s.currentProject with
  | none => (s, .ok none)
  | some cp =>
    match cp.frames.find? (fun f => f.id = frameId) with
    | none => (s, .ok none)
    | some frame =>
      let s1 := setIsGenerating s true
      if s.demoMode then
        let updatedFrame : Frame := { frame with params := params, timestamp := now }
        (setIsGenerating (updateFrame s1 updatedFrame now) false, .ok (some updatedFrame))
      else
        match remote with
        | .error e => (setIsGenerating s1 false, .error e)
        | .ok [] => (setIsGenerating s1 false, .ok none)
        | .ok (first :: _) =>
          let refinedFrame := mergeRefined frame first now
          (setIsGenerating (updateFrame s1 refinedFrame now) false,
            .ok (some refinedFrame))

/-! ## Helper lemmas -/

theorem writeBack_entry_frames (up q : SceneProject) (uid : String)
    (hup : up.id = uid) (hid : (if q.id = uid then up else q).id = uid) :
    (if q.id = uid then up else q).frames = up.frames := by
  by_cases hq : q.id = uid
  · rw [if_pos hq]
  · rw [if_neg hq] at hid ⊢
    exact absurd hid hq

theorem frameConsistent_applyFrameOp (s : AppState) (op : FrameOp) :
    frameConsistent (applyFrameOp s op) := by
  cases op with
  | add frame now =>
    intro cp hcp p hp hid
    cases h : s.currentProject with
    | none => simp [applyFrameOp, addFrame, h] at hcp
    | some c =>
      simp only [applyFrameOp, addFrame, h] at hcp hp
      injection hcp with hcp
      subst hcp
      obtain ⟨q, _, rfl⟩ := List.mem_map.mp hp
      exact writeBack_entry_frames _ q _ rfl hid
  | update frame now =>
    intro cp hcp p hp hid
    cases h : s.currentProject with
    | none => simp [applyFrameOp, updateFrame, h] at hcp
    | some c =>
      simp only [applyFrameOp, updateFrame, h] at hcp hp
      injection hcp with hcp
      subst hcp
      obtain ⟨q, _, rfl⟩ := List.mem_map.mp hp
      exact writeBack_entry_frames _ q _ rfl hid
  | del id now =>
    intro cp hcp p hp hid
    cases h : s.currentProject with
    | none => simp [applyFrameOp, deleteFrame, h] at hcp
    | some c =>
      simp only [applyFrameOp, deleteFrame, h] at hcp hp
      injection hcp with hcp
      subst hcp
      obtain ⟨q, _, rfl⟩ := List.mem_map.mp hp
      exact writeBack_entry_frames _ q _ rfl hid
  | reorder frames now =>
    intro cp hcp p hp hid
    cases h : s.currentProject with
    | none => simp [applyFrameOp, reorderFrames, h] at hcp
    | some c =>
      simp only [applyFrameOp, reorderFrames, h] at hcp hp
      injection hcp with hcp
      subst hcp
      obtain ⟨q, _, rfl⟩ := List.mem_map.mp hp
      exact writeBack_entry_frames _ q _ rfl hid

theorem frameConsistent_applyFrameOps (s : AppState) (ops : List FrameOp)
    (hs : frameConsistent s) : frameConsistent (applyFrameOps s ops) := by
  induction ops generalizing s with
  | nil => exact hs
  | cons op ops ih =>
    exact ih (applyFrameOp s op) (frameConsistent_applyFrameOp s op)

/-! ## Witness fixtures -/

/-- A concrete frame used by witness instantiations. -/
def wFrame : Frame :=
  { id := "f1"
    imageUrl := "https://example.test/img.png"
    prompt := "p"
    params := defaultParams
    timestamp := 0
    notes := none }

/-- A concrete project holding `wFrame`. -/
def wProject : SceneProject :=
  { id := "proj1"
    name := "Chase"
    description := "desc"
    genre := "noir"
    frames := [wFrame]
    createdAt := 0
    updatedAt := 0
    backendId := none }

/-- A concrete store state whose current project is `wProject` (also listed
in `projects`). -/
def wState : AppState :=
  { initialState with currentProject := some wProject, projects := [wProject] }

/-- `wState` with the frame `f1` selected. -/
def wStateSel : AppState :=
  { wState with selectedFrameId := some "f1" }

/-! ## Claim theorems -/

/-- C1: for every sequence of calls to `addFrame`, `updateFrame`,
`deleteFrame`, and `reorderFrames`, after every call (i.e. after every
nonempty prefix of the sequence) the following holds: if `currentProject`
is non-null and an entry with the same id exists in `projects`, then the
frame list inside `currentProject` is identical to the frame list inside
that matching entry — each operation updates both in the same atomic state
transition. -/
theorem frame_mutations_keep_project_entry_consistent (s : AppState)
    (ops : List FrameOp) (i : Nat) (h : i < ops.length) :
    frameConsistent (applyFrameOps s (ops.take (i + 1))) := by
  have hne : ops.take (i + 1) ≠ [] := by
    intro he
    have hlen := congrArg List.length he
    simp only [List.length_take, List.length_nil] at hlen
    omega
  cases e : ops.take (i + 1) with
  | nil => exact absurd e hne
  | cons op rest =>
    exact frameConsistent_applyFrameOps (applyFrameOp s op) rest
      (frameConsistent_applyFrameOp s op)

/-- Witness for C1 at a concrete one-call sequence. -/
theorem frame_mutations_keep_project_entry_consistent_witness :
    0 < ([FrameOp.add wFrame 5] : List FrameOp).length ∧
      frameConsistent (applyFrameOps wState ([FrameOp.add wFrame 5].take (0 + 1))) :=
  ⟨by decide,
    frame_mutations_keep_project_entry_consistent wState [FrameOp.add wFrame 5] 0
      (by decide)⟩

/-- C3: with a non-null `currentProject`, `deleteFrame id` results in
`selectedFrameId = none` exactly when the prior `selectedFrameId` equalled
the deleted id, and leaves `selectedFrameId` unchanged otherwise (also when
it was already null). -/
theorem deleteFrame_clears_selection_iff_deleted (s : AppState)
    (cp : SceneProject) (hcp : s.currentProject = some cp) (id : String)
    (now : Nat) :
    (deleteFrame s id now).selectedFrameId =
      if s.selectedFrameId = some id then none else s.selectedFrameId := by
  simp [deleteFrame, hcp]

/-- Witness for C3: deleting the selected frame clears the selection. -/
theorem deleteFrame_clears_selection_iff_deleted_witness :
    (deleteFrame wStateSel "f1" 7).selectedFrameId = none := by
  rw [deleteFrame_clears_selection_iff_deleted wStateSel wProject rfl "f1" 7]
  decide

/-- C4: rehydrating the durable snapshot produced by `partialize`
reproduces `demoMode` and `projects`, resets `currentProject`,
`selectedFrameId`, `isGenerating`, and `generationProgress` to their
initial defaults, and the snapshot carries exactly the fields `demoMode`
and `projects`. -/
theorem persistence_roundtrip_restores_demoMode_projects (s : AppState) :
    (rehydrate (partialize s)).demoMode = s.demoMode ∧
    (rehydrate (partialize s)).projects = s.projects ∧
    (rehydrate (partialize s)).currentProject = none ∧
    (rehydrate (partialize s)).selectedFrameId = none ∧
    (rehydrate (partialize s)).isGenerating = false ∧
    (rehydrate (partialize s)).generationProgress = none ∧
    partialize s = { demoMode := s.demoMode, projects := s.projects } :=
  ⟨rfl, rfl, rfl, rfl, rfl, rfl, rfl⟩

/-- C10: `deleteProject id` removes exactly the entries with that id from
`projects`, nulls `currentProject` exactly when its id matches, and leaves
every other field — in particular `selectedFrameId` — unchanged, so a
dangling frame selection survives deletion of its project. -/
theorem deleteProject_touches_only_projects_and_currentProject
    (s : AppState) (id : String) :
    (deleteProject s id).projects = s.projects.filter (fun p => p.id != id) ∧
    (deleteProject s id).currentProject =
      (match s.currentProject with
       | some c => if c.id = id then none else some c
       | none => none) ∧
    (deleteProject s id).selectedFrameId = s.selectedFrameId ∧
    (deleteProject s id).demoMode = s.demoMode ∧
    (deleteProject s id).isGenerating = s.isGenerating ∧
    (deleteProject s id).generationProgress = s.generationProgress ∧
    (deleteProject s id).jsonEditorContent = s.jsonEditorContent :=
  ⟨rfl, rfl, rfl, rfl, rfl, rfl, rfl⟩

/-- A polling attempt that observes no terminal status: either the
job-status fetch failed (no status at all), or the status is neither
`completed` nor `failed`. -/
def nonTerminalEvent (ev : PollEvent) : Prop :=
  match ev with
  | .fetchError => True
  | .job status _ _ => status ≠ "completed" ∧ status ≠ "failed"

theorem pollGo_congr (ev ev' : Nat → PollEvent) (fuel attempt : Nat)
    (h : ∀ i, attempt ≤ i → i < attempt + fuel → ev i = ev' i) :
    pollGo ev fuel attempt = pollGo ev' fuel attempt := by
  induction fuel generalizing attempt with
  | zero => rfl
  | succ n ih =>
    have he : ev attempt = ev' attempt := h attempt le_rfl (by omega)
    simp only [pollGo, he]
    cases pollTryBody (ev' attempt) with
    | returned fs => rfl
    | threw m => exact ih (attempt + 1) (fun i h1 h2 => h i (by omega) (by omega))
    | fell => exact ih (attempt + 1) (fun i h1 h2 => h i (by omega) (by omega))

theorem pollGo_timeout (ev : Nat → PollEvent) (fuel attempt : Nat)
    (h : ∀ i, attempt ≤ i → i < attempt + fuel → nonTerminalEvent (ev i)) :
    pollGo ev fuel attempt = Except.error timeoutMsg := by
  induction fuel generalizing attempt with
  | zero => rfl
  | succ n ih =>
    have hnt := h attempt le_rfl (by omega)
    cases hev : ev attempt with
    | fetchError =>
      simp only [pollGo, hev, pollTryBody]
      exact ih (attempt + 1) (fun i h1 h2 => h i (by omega) (by omega))
    | job status errMsg pf =>
      rw [hev] at hnt
      obtain ⟨h1, h2⟩ := hnt
      simp only [pollGo, hev, pollTryBody, if_neg h1, if_neg h2]
      exact ih (attempt + 1) (fun i h3 h4 => h i (by omega) (by omega))

/-- C6: every invocation of `pollGenerationJob` terminates within the fixed
attempt budget of 60: the result depends only on the first 60 polling
attempts, and if none of them observes a terminal status the operation
fails with the timeout error rather than polling forever. -/
theorem pollGenerationJob_bounded_attempts_then_timeout :
    (∀ ev ev' : Nat → PollEvent, (∀ i, i < 60 → ev i = ev' i) →
        pollGenerationJob ev = pollGenerationJob ev') ∧
    (∀ ev : Nat → PollEvent, (∀ i, i < 60 → nonTerminalEvent (ev i)) →
        pollGenerationJob ev = Except.error timeoutMsg) := by
  constructor
  · intro ev ev' h
    exact pollGo_congr ev ev' 60 0 (fun i h1 h2 => h i (by omega))
  · intro ev h
    exact pollGo_timeout ev 60 0 (fun i h1 h2 => h i (by omega))

/-- Witness for C6: sixty `pending` statuses exhaust the budget and yield
the timeout error. -/
theorem pollGenerationJob_bounded_attempts_then_timeout_witness :
    pollGenerationJob (fun _ => PollEvent.job "pending" none ProjectFetch.notOk) =
      Except.error timeoutMsg :=
  pollGenerationJob_bounded_attempts_then_timeout.2 _
    (fun i _ => ⟨by decide, by decide⟩)

/-- The job-status endpoint answering every poll with
`status: "failed", error_message: "boom"`. -/
def failedBoomEvents : Nat → PollEvent :=
  fun _ => PollEvent.job "failed" (some "boom") ProjectFetch.notOk

/-- C2 (code bug): when every poll observes `status: "failed"` with
`error_message: "boom"`, the loop does not abort with that message — the
`throw` on line 337 of `src/src/components/JsonEditor.tsx` is raised
inside the loop's own `try` and swallowed by its `catch`, so polling
retries until the attempt budget is exhausted and the operation fails with
the timeout message, not with `"boom"` as the spec states. -/
theorem poll_failed_status_swallowed_times_out :
    pollGenerationJob failedBoomEvents = Except.error timeoutMsg ∧
    pollGenerationJob failedBoomEvents ≠ Except.error "boom" := by
  have h1 : pollGenerationJob failedBoomEvents = Except.error timeoutMsg := rfl
  refine ⟨h1, ?_⟩
  rw [h1]
  intro hcontra
  have hmsg : timeoutMsg = "boom" := by injection hcontra
  exact absurd hmsg (by decide)

/-- A fetched params payload that carries `lighting: 0` explicitly. -/
def lightingZeroPayload : PayloadParams :=
  { fov := some 70
    lighting := some 0
    hdr_bloom := some 40
    hdrBloom := none
    color_temp := some 6000
    colorTemp := none
    contrast := some 55
    camera_angle := some "low-angle"
    cameraAngle := none
    composition := some "centered" }

/-- A fetched params payload with every field absent. -/
def emptyPayload : PayloadParams :=
  { fov := none
    lighting := none
    hdr_bloom := none
    hdrBloom := none
    color_temp := none
    colorTemp := none
    contrast := none
    camera_angle := none
    cameraAngle := none
    composition := none }

/-- C5 counterexample: a `lighting` value of `0` is present in the payload,
yet normalization replaces it with the fallback `60` — `||` treats the
present value `0` as missing, so a present field does not always keep its
given value. -/
theorem normalize_zero_field_not_kept :
    lightingZeroPayload.lighting = some 0 ∧
    (normalizeParams lightingZeroPayload).lighting = 60 ∧
    (normalizeParams lightingZeroPayload).lighting ≠ 0 :=
  ⟨rfl, rfl, by decide⟩

/-- C5 amended: when `pollGenerationJob` normalizes a fetched frame's
params, every numeric field that is missing or carried as `0` (JS falsy)
is replaced by its documented fallback (fov 50, lighting 60, hdrBloom 30,
colorTemp 5500, contrast 50), tolerating both snake_case and camelCase
names (snake_case consulted first); every numeric field present with a
nonzero value keeps its given value. -/
theorem normalize_fallbacks_js_truthiness (p : PayloadParams) :
    ((p.fov = none ∨ p.fov = some 0) → (normalizeParams p).fov = 50) ∧
    (∀ v : ℚ, p.fov = some v → v ≠ 0 → (normalizeParams p).fov = v) ∧
    ((p.lighting = none ∨ p.lighting = some 0) →
      (normalizeParams p).lighting = 60) ∧
    (∀ v : ℚ, p.lighting = some v → v ≠ 0 → (normalizeParams p).lighting = v) ∧
    (∀ v : ℚ, p.hdr_bloom = some v → v ≠ 0 → (normalizeParams p).hdrBloom = v) ∧
    ((p.hdr_bloom = none ∨ p.hdr_bloom = some 0) →
      ∀ v : ℚ, p.hdrBloom = some v → v ≠ 0 → (normalizeParams p).hdrBloom = v) ∧
    ((p.hdr_bloom = none ∨ p.hdr_bloom = some 0) →
      (p.hdrBloom = none ∨ p.hdrBloom = some 0) →
      (normalizeParams p).hdrBloom = 30) ∧
    (∀ v : ℚ, p.color_temp = some v → v ≠ 0 → (normalizeParams p).colorTemp = v) ∧
    ((p.color_temp = none ∨ p.color_temp = some 0) →
      ∀ v : ℚ, p.colorTemp = some v → v ≠ 0 → (normalizeParams p).colorTemp = v) ∧
    ((p.color_temp = none ∨ p.color_temp = some 0) →
      (p.colorTemp = none ∨ p.colorTemp = some 0) →
      (normalizeParams p).colorTemp = 5500) ∧
    ((p.contrast = none ∨ p.contrast = some 0) →
      (normalizeParams p).contrast = 50) ∧
    (∀ v : ℚ, p.contrast = some v → v ≠ 0 → (normalizeParams p).contrast = v) := by
  have hz : ∀ (x : Option ℚ) (d : ℚ), (x = none ∨ x = some 0) → jsOrQ x d = d := by
    intro x d hx
    rcases hx with rfl | rfl <;> simp [jsOrQ]
  have hnz : ∀ (x : Option ℚ) (d v : ℚ), x = some v → v ≠ 0 → jsOrQ x d = v := by
    intro x d v hx hv
    subst hx
    simp [jsOrQ, hv]
  refine ⟨fun hx => hz _ _ hx,
    fun v hx hv => hnz _ _ v hx hv,
    fun hx => hz _ _ hx,
    fun v hx hv => hnz _ _ v hx hv,
    fun v hx hv => hnz _ _ v hx hv,
    fun hsn v hx hv => ?_,
    fun hsn hcm => ?_,
    fun v hx hv => hnz _ _ v hx hv,
    fun hsn v hx hv => ?_,
    fun hsn hcm => ?_,
    fun hx => hz _ _ hx,
    fun v hx hv => hnz _ _ v hx hv⟩
  · show jsOrQ p.hdr_bloom (jsOrQ p.hdrBloom 30) = v
    rw [hz _ _ hsn]
    exact hnz _ _ v hx hv
  · show jsOrQ p.hdr_bloom (jsOrQ p.hdrBloom 30) = 30
    rw [hz _ _ hsn]
    exact hz _ _ hcm
  · show jsOrQ p.color_temp (jsOrQ p.colorTemp 5500) = v
    rw [hz _ _ hsn]
    exact hnz _ _ v hx hv
  · show jsOrQ p.color_temp (jsOrQ p.colorTemp 5500) = 5500
    rw [hz _ _ hsn]
    exact hz _ _ hcm

/-- Witness for C5's amended claim: with every field absent, `fov` falls
back to 50. -/
theorem normalize_fallbacks_js_truthiness_witness :
    (normalizeParams emptyPayload).fov = 50 :=
  (normalize_fallbacks_js_truthiness emptyPayload).1 (Or.inl rfl)

theorem clampQ_bounds (lo hi x : ℚ) (h : lo ≤ hi) :
    lo ≤ clampQ lo hi x ∧ clampQ lo hi x ≤ hi :=
  ⟨le_max_left _ _, max_le h (min_le_left _ _)⟩

/-- C8: demo-mode generation of `"A noir chase"` with `defaultParams`
resolves with exactly 6 frames; for every produced frame `fov` lies within
`[24, 120]` and `lighting` within `[0, 100]`, for every value of the
random perturbations; and the first frame's notes field is a non-empty
string. -/
theorem demo_generate_six_frames_in_bounds (rnd : Nat → ℚ × ℚ × ℚ) (now : Nat) :
    (mockGenerateResponse "A noir chase" defaultParams rnd now).length = 6 ∧
    (∀ f ∈ mockGenerateResponse "A noir chase" defaultParams rnd now,
      24 ≤ f.params.fov ∧ f.params.fov ≤ 120 ∧
      0 ≤ f.params.lighting ∧ f.params.lighting ≤ 100) ∧
    (∃ n, ((mockGenerateResponse "A noir chase" defaultParams rnd now).head?.bind
        Frame.notes) = some n ∧ n ≠ "") := by
  refine ⟨by simp [mockGenerateResponse], ?_, ?_⟩
  · intro f hf
    simp only [mockGenerateResponse, List.mem_map] at hf
    obtain ⟨i, _, rfl⟩ := hf
    simp only [mockFrame]
    exact ⟨(clampQ_bounds 24 120 _ (by norm_num)).1,
      (clampQ_bounds 24 120 _ (by norm_num)).2,
      (clampQ_bounds 0 100 _ (by norm_num)).1,
      (clampQ_bounds 0 100 _ (by norm_num)).2⟩
  · exact ⟨"Opening shot - establish mood and setting", rfl, by decide⟩

/-- Witness for C8 at a concrete perturbation sequence. -/
theorem demo_generate_six_frames_in_bounds_witness :
    (mockGenerateResponse "A noir chase" defaultParams (fun _ => (0, 0, 0)) 0).length
      = 6 :=
  (demo_generate_six_frames_in_bounds (fun _ => (0, 0, 0)) 0).1

/-- C9: calling `regenerateFrame` with a frame id that does not exist in
the current project's frame list (or with no current project at all)
returns before touching the store: it resolves with no updated frame and
the entire store state is unchanged. -/
theorem regenerateFrame_unknown_id_noop (s : AppState) (frameId : String)
    (params : FrameParams) (remote : Except String (List Frame)) (now : Nat)
    (h : s.currentProject.bind
        (fun p => p.frames.find? (fun f => f.id = frameId)) = none) :
    regenerateFrame s frameId params remote now = (s, Except.ok none) := by
  cases hcp : s.currentProject with
  | none => simp [regenerateFrame, hcp]
  | some cp =>
    rw [hcp] at h
    simp only [Option.some_bind] at h
    simp [regenerateFrame, hcp, h]

/-- Witness for C9: regenerating a frame id absent from the current
project leaves the store untouched. -/
theorem regenerateFrame_unknown_id_noop_witness :
    regenerateFrame wState "nope" defaultParams (Except.ok []) 0 =
      (wState, Except.ok none) :=
  regenerateFrame_unknown_id_noop wState "nope" defaultParams (Except.ok []) 0
    (by decide)

/-- The first frame returned by polling in the C7 witness scenario. -/
def wRefinedFirst : Frame :=
  { id := "f1"
    imageUrl := "https://example.test/img2.png"
    prompt := "p2"
    params := defaultParams
    timestamp := 3
    notes := some "n" }

/-- C7: in remote (non-demo) mode, `regenerateFrame` on an existing frame
merges the first frame returned by polling into that existing frame while
preserving its identity — a frame with id `frameId` is still stored
afterwards — and updates in place rather than appending: the current
project's frame count is unchanged.  The resolved value is the merged
frame, and when the polled frame carries the same id (the refinement
contract) the stored frame list is exactly the original list with that one
frame replaced by the merge. -/
theorem regenerateFrame_remote_updates_in_place (s : AppState)
    (cp : SceneProject) (frameId : String) (params : FrameParams)
    (f0 first : Frame) (rest : List Frame) (now : Nat)
    (hdemo : s.demoMode = false)
    (hcp : s.currentProject = some cp)
    (hfind : cp.frames.find? (fun f => f.id = frameId) = some f0) :
    ∃ cp',
      (regenerateFrame s frameId params (Except.ok (first :: rest)) now).1.currentProject
        = some cp' ∧
      cp'.frames.length = cp.frames.length ∧
      (∃ f ∈ cp'.frames, f.id = frameId) ∧
      (regenerateFrame s frameId params (Except.ok (first :: rest)) now).2
        = Except.ok (some (mergeRefined f0 first now)) ∧
      (first.id = frameId →
        cp'.frames = cp.frames.map
          (fun f => if f.id = frameId then mergeRefined f0 first now else f)) := by
  have hval :
      regenerateFrame s frameId params (Except.ok (first :: rest)) now =
        (setIsGenerating
          (updateFrame (setIsGenerating s true) (mergeRefined f0 first now) now)
          false,
         Except.ok (some (mergeRefined f0 first now))) := by
    simp [regenerateFrame, hcp, hfind, hdemo]
  rw [hval]
  have hmem : f0 ∈ cp.frames := List.mem_of_find?_eq_some hfind
  have hid : f0.id = frameId := by
    have hpred := List.find?_some hfind
    exact of_decide_eq_true hpred
  refine ⟨{ cp with
      frames := cp.frames.map (fun f =>
        if f.id = (mergeRefined f0 first now).id then mergeRefined f0 first now
        else f)
      updatedAt := now }, ?_, ?_, ?_, ?_, ?_⟩
  · simp [setIsGenerating, updateFrame, hcp]
  · simp
  · by_cases hc : f0.id = (mergeRefined f0 first now).id
    · refine ⟨mergeRefined f0 first now, ?_, ?_⟩
      · exact List.mem_map.mpr ⟨f0, hmem, by rw [if_pos hc]⟩
      · rw [← hc]
        exact hid
    · refine ⟨f0, ?_, hid⟩
      exact List.mem_map.mpr ⟨f0, hmem, by rw [if_neg hc]⟩
  · rfl
  · intro hfid
    have hmid : (mergeRefined f0 first now).id = frameId := hfid
    simp only [hmid]

/-- Witness for C7: a polled frame with the same id replaces the stored
frame in place. -/
theorem regenerateFrame_remote_updates_in_place_witness :
    ∃ cp',
      (regenerateFrame wState "f1" defaultParams (Except.ok [wRefinedFirst]) 9).1.currentProject
        = some cp' ∧
      cp'.frames.length = wProject.frames.length ∧
      (∃ f ∈ cp'.frames, f.id = "f1") ∧
      (regenerateFrame wState "f1" defaultParams (Except.ok [wRefinedFirst]) 9).2
        = Except.ok (some (mergeRefined wFrame wRefinedFirst 9)) ∧
      (wRefinedFirst.id = "f1" →
        cp'.frames = wProject.frames.map
          (fun f => if f.id = "f1" then mergeRefined wFrame wRefinedFirst 9 else f)) :=
  regenerateFrame_remote_updates_in_place wState wProject "f1" defaultParams wFrame
    wRefinedFirst [] 9 rfl rfl rfl
